import Mathlib

/-
Verification of autoesv, a batch sorter for small fixed-layout binary
record files.  The Python source is embedded shallowly: pure functions
become Lean functions over Nat (Python ints are unbounded; masks are kept
explicit), fallible code returns Except, and the filesystem side effects
of the driver are modelled as explicit state passing over an FS record.
-/

namespace Autoesv

/-- Color escape codes for output (class tcolors in the source). -/
def tcRED : String := "\x1b[31m"

def tcRESET : String := "\x1b[00m"

/-- get_tsv: the TSV of a trainer ID and secret ID, (tid ^ sid) >> 4. -/
def get_tsv (tid sid : Nat) : Nat :=
  (tid ^^^ sid) >>> 4

/-- get_esv: the ESV of an egg.  Raises ValueError when the PID exceeds
32 bits, else splits the PID into 16-bit halves and xor-shifts. -/
def get_esv (pid : Nat) : Except String Nat :=
  if 0xffffffff < pid then
    Except.error "PID is invalid"
  else
    let high := pid >>> 16
    let low := pid &&& 0xffff
    Except.ok ((low ^^^ high) >>> 4)

/-- One decoded record (the namedtuple Pokemon in the source). -/
structure Pokemon where
  encryption_constant : Nat
  sanity : Nat
  checksum : Nat
  species : Nat
  held_item : Nat
  tid : Nat
  sid : Nat
  exp : Nat
  ability : Nat
  ability_number : Nat
  training_bag_hits : Nat
  training_bag : Nat
  pid : Nat
  deriving Repr, DecidableEq

/-- Little-endian value of a byte list (first byte least significant). -/
def leVal : List Nat → Nat
  | [] => 0
  | b :: bs => b % 256 + 256 * leVal bs

/-- calcsize of the struct format string IHHHHHHIBBBBI, little-endian,
no padding: 4 + 6*2 + 4 + 4*1 + 4 = 28 bytes. -/
def pkFormatSize : Nat := 28

/-- extract_pkdata: unpack the 28-byte prefix of a buffer into a Pokemon
record.  struct.unpack is applied to data[:28] and raises when that
slice is shorter than the format size. -/
def extract_pkdata (data : List Nat) : Except String Pokemon :=
  let buf := data.take pkFormatSize
  if buf.length = pkFormatSize then
    Except.ok
      { encryption_constant := leVal ((buf.drop 0).take 4)
        sanity := leVal ((buf.drop 4).take 2)
        checksum := leVal ((buf.drop 6).take 2)
        species := leVal ((buf.drop 8).take 2)
        held_item := leVal ((buf.drop 10).take 2)
        tid := leVal ((buf.drop 12).take 2)
        sid := leVal ((buf.drop 14).take 2)
        exp := leVal ((buf.drop 16).take 4)
        ability := leVal ((buf.drop 20).take 1)
        ability_number := leVal ((buf.drop 21).take 1)
        training_bag_hits := leVal ((buf.drop 22).take 1)
        training_bag := leVal ((buf.drop 23).take 1)
        pid := leVal ((buf.drop 24).take 4) }
  else
    Except.error "unpack requires a buffer of 28 bytes"

/-- os.path.basename for POSIX paths: the part after the last slash. -/
def basename (s : String) : String :=
  String.mk (s.data.foldl (fun acc c => if c = '/' then [] else acc ++ [c]) [])

/-- splitext(file)[1][1:]: the extension of the path's basename without
its dot.  The last dot of the basename splits it, except when every
character before that dot is itself a dot (Python's leading-dot rule). -/
def splitext_ext (file : String) : String :=
  let rev := (basename file).data.reverse
  let p := rev.span (fun c => c != '.')
  match p.2 with
  | [] => ""
  | _ :: beforeRev =>
    if beforeRev.any (fun c => c != '.') then String.mk p.1.reverse else ""

/-- Python format spec 04 applied to a Nat: decimal, zero-padded on the
left to at least four characters. -/
def format04 (n : Nat) : String :=
  let s := toString n
  if s.length < 4 then String.mk (List.replicate (4 - s.length) '0') ++ s else s

/-- The directory name composed inside ensure_dir: the format-string
produces out_dir, then a slash only when both an ESV and a pkx tag are
present, then the tag, then a slash and the zero-padded ESV when an ESV
is present.  The Python default esv value is the empty string; an absent
ESV is modelled as none. -/
def dir_name (out_dir : String) (esv : Option Nat) (pkx : String) : String :=
  out_dir
    ++ (if esv.isSome && (pkx != "") then "/" else "")
    ++ pkx
    ++ (if esv.isSome then "/" else "")
    ++ (match esv with
        | some e => format04 e
        | none => "")

/-- The filesystem state the driver mutates: the set of directories that
exist, the set of directories the process may write to (access W_OK),
and a map from file path to content (none when the path cannot be opened
and read, for example a subdirectory or an unreadable file). -/
structure FS where
  dirs : List String
  writableDirs : List String
  files : List (String × Option (List Nat))
  deriving Repr

/-- Content lookup: the first files entry whose path matches. -/
def getFile (fs : FS) (path : String) : Option (List Nat) :=
  match fs.files.find? (fun p => p.1 == path) with
  | some p => p.2
  | none => none

/-- read_bin: reads a file into a buffer all at once; raises when the
path cannot be opened and read. -/
def read_bin (fs : FS) (file : String) : Except String (List Nat) :=
  match getFile fs file with
  | some content => Except.ok content
  | none => Except.error ("cannot read file: " ++ file)

/-- ensure_dir: composes the directory name, creates the directory when
absent (creation errors are swallowed by the bare except), then probes
write access and raises IOError when the probe fails.  makedirs is
modelled as adding the directory; writability is a fixed attribute of
the modelled filesystem, which the swallow-then-probe pattern treats as
the only authority. -/
def ensure_dir (fs : FS) (out_dir : String) (esv : Option Nat) (pkx : String) :
    FS × Except String String :=
  let dn := dir_name out_dir esv pkx
  let fs1 := if fs.dirs.contains dn then fs else { fs with dirs := dn :: fs.dirs }
  (fs1,
    if fs1.writableDirs.contains dn then Except.ok dn
    else Except.error ("No write access to directory: " ++ dn))

/-- copy_file: copy2 the source file to dest_dir under its basename.
Call sites only reach this after read_bin succeeded on the source. -/
def copy_file (fs : FS) (dest_dir file : String) : FS :=
  { fs with files := (dest_dir ++ "/" ++ basename file, getFile fs file) :: fs.files }

/-- process_pkx: reads the whole file first, then inspects the extension;
a pk6 or pk7 extension decodes, classifies, routes and copies, while any
other extension falls through with no effect. -/
def process_pkx (fs : FS) (file out_dir : String) (pk_dir : Bool) : Except String FS :=
  match read_bin fs file with
  | Except.error e => Except.error e
  | Except.ok data =>
    let ftype := splitext_ext file
    if ftype = "pk6" then
      match extract_pkdata data with
      | Except.error e => Except.error e
      | Except.ok pkinfo =>
        match get_esv pkinfo.pid with
        | Except.error e => Except.error e
        | Except.ok esv =>
          match ensure_dir fs out_dir (some esv) (if pk_dir then "PK6" else "") with
          | (_, Except.error e) => Except.error e
          | (fs1, Except.ok dn) => Except.ok (copy_file fs1 dn file)
    else if ftype = "pk7" then
      match extract_pkdata data with
      | Except.error e => Except.error e
      | Except.ok pkinfo =>
        match get_esv pkinfo.pid with
        | Except.error e => Except.error e
        | Except.ok esv =>
          match ensure_dir fs out_dir (some esv) (if pk_dir then "PK7" else "") with
          | (_, Except.error e) => Except.error e
          | (fs1, Except.ok dn) => Except.ok (copy_file fs1 dn file)
    else
      Except.ok fs

/-- process_in_dir: dispatch every entry of the source listing, in order,
to process_pkx on the joined path; the first error aborts the batch. -/
def process_in_dir (fs : FS) (in_dir : String) (entries : List String)
    (out_dir : String) (pk_dir : Bool) : Except String FS :=
  match entries with
  | [] => Except.ok fs
  | e :: rest =>
    match process_pkx fs (in_dir ++ "/" ++ e) out_dir pk_dir with
    | Except.error err => Except.error err
    | Except.ok fs1 => process_in_dir fs1 in_dir rest out_dir pk_dir

/-- main after argument parsing: ensure the output root (printing a red
error line and exiting with code 1 when that raises IOError), then run
the per-file loop; an uncaught error from the loop also terminates with
a nonzero code, and falling off the end exits 0.  The result is the exit
code and the error line printed on the root-failure path. -/
def main_run (fs : FS) (entries : List String) (in_dir out_dir : String)
    (pk_dir : Bool) : Nat × Option String :=
  let p := ensure_dir fs out_dir none ""
  match p.2 with
  | Except.error e => (1, some (tcRED ++ e ++ tcRESET))
  | Except.ok _ =>
    match process_in_dir p.1 in_dir entries out_dir pk_dir with
    | Except.ok _ => (0, none)
    | Except.error _ => (1, none)

/-- A filesystem with an unreadable entry carrying no extension. -/
def fsUnreadable : FS :=
  { dirs := ["in", "out"], writableDirs := ["out"],
    files := [("in/sub", none)] }

/-- A filesystem with one readable text file of an unrecognized type. -/
def fsTextFile : FS :=
  { dirs := ["in", "out"], writableDirs := ["out"],
    files := [("in/readme.txt", some [104, 105])] }

/-- A filesystem whose output root is not writable. -/
def fsNoWrite : FS :=
  { dirs := ["in"], writableDirs := [], files := [] }

/-- A filesystem whose output root exists and is writable. -/
def fsWritable : FS :=
  { dirs := ["in", "out"], writableDirs := ["out"], files := [] }

end Autoesv

namespace Autoesv

theorem get_esv_ok (pid : Nat) (h : pid ≤ 0xffffffff) :
    get_esv pid = Except.ok (((pid &&& 0xffff) ^^^ (pid >>> 16)) >>> 4) := by
  simp [get_esv, Nat.not_lt.mpr h]

theorem esv_formula_le (pid : Nat) (h : pid ≤ 0xffffffff) :
    ((pid &&& 0xffff) ^^^ (pid >>> 16)) >>> 4 ≤ 4095 := by
  have hlow : pid &&& 0xffff < 2 ^ 16 :=
    Nat.and_lt_two_pow pid (by norm_num)
  have hhigh : pid >>> 16 < 2 ^ 16 := by
    rw [Nat.shiftRight_eq_div_pow]
    have : pid < 2 ^ 16 * 2 ^ 16 := by omega
    exact Nat.div_lt_of_lt_mul this
  have hxor : (pid &&& 0xffff) ^^^ (pid >>> 16) < 2 ^ 16 :=
    Nat.xor_lt_two_pow hlow hhigh
  rw [Nat.shiftRight_eq_div_pow]
  have h4096 : ((pid &&& 0xffff) ^^^ (pid >>> 16)) / 2 ^ 4 < 4096 := by
    apply Nat.div_lt_of_lt_mul
    calc (pid &&& 0xffff) ^^^ (pid >>> 16) < 2 ^ 16 := hxor
      _ ≤ 4096 * 2 ^ 4 := by norm_num
  omega

/-- Claim C1: for every personality id at most 0xFFFFFFFF, get_esv returns
exactly ((pid & 0xFFFF) xor (pid >> 16)) >> 4, and that value is in
the range 0 to 4095. -/
theorem c1_get_esv_formula_and_range (pid : Nat) (h : pid ≤ 0xffffffff) :
    get_esv pid = Except.ok (((pid &&& 0xffff) ^^^ (pid >>> 16)) >>> 4) ∧
      ((pid &&& 0xffff) ^^^ (pid >>> 16)) >>> 4 ≤ 4095 :=
  ⟨get_esv_ok pid h, esv_formula_le pid h⟩

theorem c1_witness :
    get_esv 0xcafebabe =
        Except.ok (((0xcafebabe &&& 0xffff) ^^^ (0xcafebabe >>> 16)) >>> 4) ∧
      ((0xcafebabe &&& 0xffff) ^^^ (0xcafebabe >>> 16)) >>> 4 ≤ 4095 :=
  c1_get_esv_formula_and_range 0xcafebabe (by norm_num)

/-- Claim C3: get_esv applied to 0x12345678 returns exactly 0x0444,
that is 1092 decimal (low 0x5678, high 0x1234, xor 0x444C, >> 4). -/
theorem c3_get_esv_concrete : get_esv 0x12345678 = Except.ok 1092 := by
  rw [get_esv_ok 0x12345678 (by norm_num)]
  congr 1

/-- Claim C4: get_tsv computes (a xor b) >> 4, is commutative in its two
arguments, and for 16-bit inputs its result lies in the range 0 to 4095. -/
theorem c4_get_tsv_comm_range (a b : Nat) (ha : a ≤ 0xffff) (hb : b ≤ 0xffff) :
    get_tsv a b = (a ^^^ b) >>> 4 ∧
      get_tsv a b = get_tsv b a ∧
      get_tsv a b ≤ 4095 := by
  refine ⟨rfl, by simp [get_tsv, Nat.xor_comm], ?_⟩
  have hxor : a ^^^ b < 2 ^ 16 :=
    Nat.xor_lt_two_pow (by omega) (by omega)
  have : (a ^^^ b) / 2 ^ 4 < 4096 := by
    apply Nat.div_lt_of_lt_mul
    calc a ^^^ b < 2 ^ 16 := hxor
      _ ≤ 4096 * 2 ^ 4 := by norm_num
  rw [get_tsv, Nat.shiftRight_eq_div_pow]
  omega

theorem c4_witness :
    get_tsv 0x1234 0x5678 = (0x1234 ^^^ 0x5678) >>> 4 ∧
      get_tsv 0x1234 0x5678 = get_tsv 0x5678 0x1234 ∧
      get_tsv 0x1234 0x5678 ≤ 4095 :=
  c4_get_tsv_comm_range 0x1234 0x5678 (by norm_num) (by norm_num)

/-- Claim C5: get_esv fails if and only if its input exceeds 0xFFFFFFFF;
for any input within the 32-bit range the guard never fires and the
function returns normally. -/
theorem c5_get_esv_guard (pid : Nat) :
    ((∃ e, get_esv pid = Except.error e) ↔ 0xffffffff < pid) ∧
      (pid ≤ 0xffffffff → ∃ v, get_esv pid = Except.ok v) := by
  constructor
  · constructor
    · intro ⟨e, he⟩
      by_contra hn
      rw [get_esv_ok pid (Nat.not_lt.mp hn)] at he
      exact Except.noConfusion he
    · intro h
      exact ⟨"PID is invalid", by simp [get_esv, h]⟩
  · intro h
    exact ⟨_, get_esv_ok pid h⟩

theorem c5_witness : ∃ v, get_esv 7 = Except.ok v :=
  (c5_get_esv_guard 7).2 (by norm_num)

/-- Claim C9: for every 32-bit personality id, get_esv equals get_tsv
applied to the low and high 16-bit halves: the primary and secondary
classification values are the same xor-then-shift function. -/
theorem c9_get_esv_eq_get_tsv (pid : Nat) (h : pid ≤ 0xffffffff) :
    get_esv pid = Except.ok (get_tsv (pid &&& 0xffff) (pid >>> 16)) :=
  get_esv_ok pid h

theorem c9_witness :
    get_esv 0x12345678 =
      Except.ok (get_tsv (0x12345678 &&& 0xffff) (0x12345678 >>> 16)) :=
  c9_get_esv_eq_get_tsv 0x12345678 (by norm_num)

/-- Claim C2 as stated is false: a buffer of 18 zero bytes has length at
least 18 yet extract_pkdata fails on it, because the struct format
IHHHHHHIBBBBI occupies 28 bytes, not 18. -/
theorem c2_counterexample :
    18 ≤ (List.replicate 18 0).length ∧
      (extract_pkdata (List.replicate 18 0)).isOk = false := by
  constructor
  · decide
  · rfl

/-- Claim C2 amended: extract_pkdata fails exactly when the buffer is
shorter than the 28-byte struct size (14 bytes of 16- and 32-bit scalars,
a 4-byte experience field, four single-byte fields, then the 4-byte
identifier); every buffer of at least 28 bytes decodes successfully and
bytes beyond the 28-byte prefix are ignored. -/
theorem c2_decode_length (data : List Nat) :
    (data.length < 28 →
      extract_pkdata data = Except.error "unpack requires a buffer of 28 bytes") ∧
    (28 ≤ data.length →
      (extract_pkdata data).isOk = true ∧
        extract_pkdata data = extract_pkdata (data.take 28)) := by
  constructor
  · intro h
    have hc : ¬ (data.take pkFormatSize).length = pkFormatSize := by
      simp only [List.length_take, pkFormatSize]
      omega
    simp only [extract_pkdata]
    rw [if_neg hc]
  · intro h
    have hc : (data.take pkFormatSize).length = pkFormatSize := by
      simp only [List.length_take, pkFormatSize]
      omega
    constructor
    · simp only [extract_pkdata]
      rw [if_pos hc]
      rfl
    · simp [extract_pkdata, pkFormatSize, List.take_take]

theorem c2_witness :
    ((extract_pkdata (List.replicate 28 0)).isOk = true ∧
      extract_pkdata (List.replicate 28 0) =
        extract_pkdata ((List.replicate 28 0).take 28)) ∧
    extract_pkdata [] = Except.error "unpack requires a buffer of 28 bytes" :=
  ⟨(c2_decode_length (List.replicate 28 0)).2 (by simp),
    (c2_decode_length []).1 (by simp)⟩

theorem dir_name_none (root : String) : dir_name root none "" = root := by
  simp [dir_name]

theorem dir_name_root_esv (root : String) (v : Nat) :
    dir_name root (some v) "" = root ++ "/" ++ format04 v := by
  simp [dir_name]

theorem dir_name_root_tag_esv (root tag : String) (v : Nat) (h : tag ≠ "") :
    dir_name root (some v) tag = root ++ "/" ++ tag ++ "/" ++ format04 v := by
  simp [dir_name, h]

theorem format04_seven : format04 7 = "0007" := by
  decide

theorem ensure_dir_idem (fs : FS) (out_dir : String) (esv : Option Nat)
    (pkx : String) :
    ensure_dir (ensure_dir fs out_dir esv pkx).1 out_dir esv pkx =
      ensure_dir fs out_dir esv pkx := by
  simp only [ensure_dir]
  by_cases h1 : dir_name out_dir esv pkx ∈ fs.dirs
  · simp [h1]
  · simp [h1]

/-- Claim C6: ensure_dir composes root/NNNN without a tag and
root/TAG/NNNN with one, where NNNN is the ESV zero-padded to four
decimal digits (7 gives 0007); with no ESV only the root is produced;
and a repeated call with identical arguments is idempotent, returning
the same path and state with no error about the existing directory. -/
theorem c6_ensure_dir_paths (root tag : String) (v : Nat) (fs : FS)
    (esv : Option Nat) (pkx : String) (htag : tag ≠ "") :
    dir_name root (some v) "" = root ++ "/" ++ format04 v ∧
      dir_name root (some v) tag = root ++ "/" ++ tag ++ "/" ++ format04 v ∧
      dir_name root none "" = root ∧
      format04 7 = "0007" ∧
      ensure_dir (ensure_dir fs root esv pkx).1 root esv pkx =
        ensure_dir fs root esv pkx :=
  ⟨dir_name_root_esv root v, dir_name_root_tag_esv root tag v htag,
    dir_name_none root, format04_seven, ensure_dir_idem fs root esv pkx⟩

theorem c6_witness :
    dir_name "out" (some 7) "" = "out" ++ "/" ++ format04 7 ∧
      dir_name "out" (some 7) "PK6" = "out" ++ "/" ++ "PK6" ++ "/" ++ format04 7 ∧
      dir_name "out" none "" = "out" ∧
      format04 7 = "0007" ∧
      ensure_dir (ensure_dir fsWritable "out" (some 7) "PK6").1 "out" (some 7) "PK6" =
        ensure_dir fsWritable "out" (some 7) "PK6" :=
  c6_ensure_dir_paths "out" "PK6" 7 fsWritable (some 7) "PK6" (by decide)

theorem ensure_dir_root_ok (fs : FS) (out_dir : String)
    (h : out_dir ∈ fs.writableDirs) :
    (ensure_dir fs out_dir none "").2 = Except.ok out_dir := by
  simp only [ensure_dir, dir_name_none]
  by_cases h2 : out_dir ∈ fs.dirs
  · simp [h2, h]
  · simp [h2, h]

theorem ensure_dir_root_err (fs : FS) (out_dir : String)
    (h : out_dir ∉ fs.writableDirs) :
    (ensure_dir fs out_dir none "").2 =
      Except.error ("No write access to directory: " ++ out_dir) := by
  simp only [ensure_dir, dir_name_none]
  by_cases h2 : out_dir ∈ fs.dirs
  · simp [h2, h]
  · simp [h2, h]

/-- Claim C7: when the destination root cannot be made writable, the run
prints a red-colorized error line and stops with exit code 1, with the
outcome independent of the source listing (no source file is read and no
per-file processing happens); a run whose root is writable and whose
per-file loop succeeds finishes with exit code 0. -/
theorem c7_root_abort_and_exit_codes (fs : FS) (entries : List String)
    (in_dir out_dir : String) (pk : Bool) :
    (out_dir ∉ fs.writableDirs →
      main_run fs entries in_dir out_dir pk =
        (1, some (tcRED ++ ("No write access to directory: " ++ out_dir) ++ tcRESET))) ∧
    (∀ fs2, out_dir ∈ fs.writableDirs →
      process_in_dir (ensure_dir fs out_dir none "").1 in_dir entries out_dir pk =
        Except.ok fs2 →
      main_run fs entries in_dir out_dir pk = (0, none)) := by
  constructor
  · intro h
    simp only [main_run]
    rw [ensure_dir_root_err fs out_dir h]
  · intro fs2 hw hp
    simp only [main_run]
    rw [ensure_dir_root_ok fs out_dir hw, hp]

theorem c7_witness :
    main_run fsNoWrite [] "in" "out" false =
        (1, some (tcRED ++ ("No write access to directory: " ++ "out") ++ tcRESET)) ∧
      main_run fsWritable [] "in" "out" false = (0, none) :=
  ⟨(c7_root_abort_and_exit_codes fsNoWrite [] "in" "out" false).1 (by decide),
    (c7_root_abort_and_exit_codes fsWritable [] "in" "out" false).2
      (ensure_dir fsWritable "out" none "").1 (by decide) rfl⟩

/-- Claim C8 as stated is false at an entry whose extension is
unrecognized but whose content cannot be read: the source reads the
whole file before looking at the extension, so processing the entry
raises instead of skipping silently. -/
theorem c8_counterexample :
    splitext_ext "in/sub" ≠ "pk6" ∧ splitext_ext "in/sub" ≠ "pk7" ∧
      (process_pkx fsUnreadable "in/sub" "out" false).isOk = false := by
  refine ⟨by decide, by decide, ?_⟩
  rfl

/-- Claim C8 amended: for every directory entry whose content can be
read and whose extension is neither pk6 nor pk7, processing is silently
skipped: it returns successfully, copies no file and creates no
directory, leaving the filesystem state unchanged. -/
theorem c8_skip_unrecognized (fs : FS) (file out_dir : String) (pk : Bool)
    (data : List Nat) (hread : read_bin fs file = Except.ok data)
    (h6 : splitext_ext file ≠ "pk6") (h7 : splitext_ext file ≠ "pk7") :
    process_pkx fs file out_dir pk = Except.ok fs := by
  simp [process_pkx, hread, h6, h7]

theorem c8_witness :
    process_pkx fsTextFile "in/readme.txt" "out" false = Except.ok fsTextFile :=
  c8_skip_unrecognized fsTextFile "in/readme.txt" "out" false [104, 105]
    rfl (by decide) (by decide)

/-- Claim C10: process_pkx reads the file before inspecting its
extension, so a failing read propagates as an error no matter the
extension, and process_in_dir dispatches each listing entry to it, so
such an error aborts the whole batch. -/
theorem c10_read_failure_aborts_batch (fs : FS) (out_dir in_dir e m : String)
    (rest : List String) (pk : Bool) :
    (read_bin fs (in_dir ++ "/" ++ e) = Except.error m →
      process_pkx fs (in_dir ++ "/" ++ e) out_dir pk = Except.error m) ∧
    (process_pkx fs (in_dir ++ "/" ++ e) out_dir pk = Except.error m →
      process_in_dir fs in_dir (e :: rest) out_dir pk = Except.error m) := by
  constructor
  · intro h
    simp [process_pkx, h]
  · intro h
    simp [process_in_dir, h]

theorem c10_witness :
    process_in_dir fsUnreadable "in" ["sub", "x.pk6"] "out" false =
      Except.error "cannot read file: in/sub" := by
  have h := c10_read_failure_aborts_batch fsUnreadable "out" "in" "sub"
    "cannot read file: in/sub" ["x.pk6"] false
  exact h.2 (h.1 rfl)

end Autoesv
